import Mathlib

/-!
Verification of the detections-consensus step executors of the workflow
engine (`inference/enterprise/deployments/complier/steps_executors/auxiliary.py`).

The Python functions are shallowly embedded as executable Lean definitions:
detections are records over `ℚ` (Python floats are modelled as exact
rationals), Python's banker's rounding is modelled exactly, fallible code
returns `Except StepFailure`, and Python's `uuid4` fresh-identifier
generation is modelled by an injected identifier argument.
-/

/-- Failure modes of the step executors: `graphError` models
`ExecutionGraphError` raised with a message; `indexError` models an
unguarded `list[0]` on an empty list; `attributeError` models calling
`.items()` on an `int`. -/
inductive StepFailure where
  | graphError (message : String)
  | indexError
  | attributeError
deriving DecidableEq, Repr

/-- Python 3 `round` to the nearest integer, halves to even
(banker's rounding), on exact rationals. -/
def python_round (q : ℚ) : Int :=
  let f : Int := q.floor
  let frac : ℚ := q - (f : ℚ)
  if frac < 1 / 2 then f
  else if 1 / 2 < frac then f + 1
  else if f % 2 = 0 then f else f + 1

/-- Python `max` over a list of rationals (`0` on the empty list, which the
source never passes). -/
def list_max : List ℚ → ℚ
  | [] => 0
  | x :: xs => xs.foldl max x

/-- Python `min` over a list of rationals (`0` on the empty list, which the
source never passes). -/
def list_min : List ℚ → ℚ
  | [] => 0
  | x :: xs => xs.foldl min x

/-- `statistics.mean` over a list of rationals. -/
def list_mean (values : List ℚ) : ℚ :=
  values.sum / (values.length : ℚ)

/-- The distinct elements of a list in first-occurrence order: models both
a Python `dict`'s key set (insertion-ordered) and a Python `set` built from
the list (the source only inspects a set's cardinality and sole element). -/
def distinct_in_order (l : List String) : List String :=
  l.foldl (fun acc x => if x ∈ acc then acc else acc ++ [x]) []

theorem mem_distinct_in_order_aux (l acc : List String) (a : String) :
    a ∈ l.foldl (fun acc x => if x ∈ acc then acc else acc ++ [x]) acc ↔
      a ∈ acc ∨ a ∈ l := by
  induction l generalizing acc with
  | nil => simp
  | cons x t ih =>
    simp only [List.foldl_cons, ih, List.mem_cons]
    by_cases hx : x ∈ acc
    · simp only [if_pos hx]
      constructor
      · rintro (h | h)
        · exact Or.inl h
        · exact Or.inr (Or.inr h)
      · rintro (h | h | h)
        · exact Or.inl h
        · exact Or.inl (h ▸ hx)
        · exact Or.inr h
    · simp only [if_neg hx, List.mem_append, List.mem_singleton]
      tauto

theorem mem_distinct_in_order (l : List String) (a : String) :
    a ∈ distinct_in_order l ↔ a ∈ l := by
  unfold distinct_in_order
  rw [mem_distinct_in_order_aux]
  simp

/-- A list holding two distinct elements has more than one element. -/
theorem one_lt_length_of_two_mem {α : Type} {l : List α} {x y : α}
    (hx : x ∈ l) (hy : y ∈ l) (hxy : x ≠ y) : 1 < l.length := by
  match l with
  | [] => cases hx
  | [a] =>
    simp only [List.mem_singleton] at hx hy
    exact absurd (hx.trans hy.symm) hxy
  | a :: b :: t =>
    simp only [List.length_cons]
    omega

theorem distinct_in_order_all_eq_aux (l : List String) (p : String)
    (h : ∀ x ∈ l, x = p) :
    l.foldl (fun acc x => if x ∈ acc then acc else acc ++ [x]) [p] = [p] := by
  induction l with
  | nil => rfl
  | cons x t ih =>
    have hx : x = p := h x (List.mem_cons_self x t)
    simp only [List.foldl_cons, hx, List.mem_singleton, if_pos rfl]
    exact ih (fun y hy => h y (List.mem_cons_of_mem x hy))

/-- If a nonempty list is constant, its distinct-element list is the
singleton of that constant. -/
theorem distinct_in_order_all_eq (l : List String) (p : String)
    (hne : l ≠ []) (h : ∀ x ∈ l, x = p) : distinct_in_order l = [p] := by
  match l with
  | [] => exact absurd rfl hne
  | x :: t =>
    have hx : x = p := h x (List.mem_cons_self x t)
    unfold distinct_in_order
    simp only [List.foldl_cons, List.not_mem_nil, if_neg, List.nil_append, hx]
    exact distinct_in_order_all_eq_aux t p (fun y hy => h y (List.mem_cons_of_mem x hy))

/-- A detection record, as the dictionaries produced by the detection
models: `(x, y)` is the box center, `(width, height)` its extent,
`parent_id` links the detection to the image or detection it was produced
against.  The Python key `"class"` is embedded as `class_name`. -/
structure Detection where
  detection_id : String
  parent_id : String
  class_name : String
  class_id : Int
  confidence : ℚ
  x : ℚ
  y : ℚ
  width : ℚ
  height : ℚ
deriving DecidableEq, Repr

/-- `detection_to_xyxy`: corner coordinates of a detection's box,
`x_min = round(x - width / 2)`, `x_max = round(x_min + width)` and
symmetrically for `y`. -/
def detection_to_xyxy (detection : Detection) : Int × Int × Int × Int :=
  let x_min := python_round (detection.x - detection.width / 2)
  let y_min := python_round (detection.y - detection.height / 2)
  let x_max := python_round ((x_min : ℚ) + detection.width)
  let y_max := python_round ((y_min : ℚ) + detection.height)
  (x_min, y_min, x_max, y_max)

/-- `calculate_iou`: intersection-over-union of two detections' boxes with
the inclusive `+1` pixel convention on both extents. -/
def calculate_iou (detection_a detection_b : Detection) : ℚ :=
  let box_a := detection_to_xyxy detection_a
  let box_b := detection_to_xyxy detection_b
  let x_a := max box_a.1 box_b.1
  let y_a := max box_a.2.1 box_b.2.1
  let x_b := min box_a.2.2.1 box_b.2.2.1
  let y_b := min box_a.2.2.2 box_b.2.2.2
  let intersection := max 0 (x_b - x_a + 1) * max 0 (y_b - y_a + 1)
  let bbox_a_area := (box_a.2.2.1 - box_a.1 + 1) * (box_a.2.2.2 - box_a.2.1 + 1)
  let bbox_b_area := (box_b.2.2.1 - box_b.1 + 1) * (box_b.2.2.2 - box_b.2.1 + 1)
  (intersection : ℚ) / ((bbox_a_area + bbox_b_area - intersection : Int) : ℚ)

/-- A crop record produced by `crop_image`: the numpy slice
`image[y_min:y_max, x_min:x_max]` is represented by its bounds, the
`origin_coordinates` payload by the crop center and the origin image's
size (pixel contents are out of scope). -/
structure CropRecord where
  parent_id : String
  center_x : ℚ
  center_y : ℚ
  origin_height : Int
  origin_width : Int
  x_min : Int
  y_min : Int
  x_max : Int
  y_max : Int
deriving DecidableEq, Repr

/-- `crop_image`: one crop per detection; the crop's `parent_id` is the
detection's own `detection_id`, its origin coordinates are the
detection's center and the supplied origin size. -/
def crop_image (detections : List Detection)
    (origin_height origin_width : Int) : List CropRecord :=
  detections.map fun detection =>
    let box := detection_to_xyxy detection
    { parent_id := detection.detection_id
      center_x := detection.x
      center_y := detection.y
      origin_height := origin_height
      origin_width := origin_width
      x_min := box.1
      y_min := box.2.1
      x_max := box.2.2.1
      y_max := box.2.2.2 }

/-- `offset_detection`: copies the detection, adds the rounded offsets to
`width`/`height`, records the original identifier as `parent_id`, and
assigns a fresh identifier (Python's `uuid4()` is modelled by the injected
`new_detection_id`). -/
def offset_detection (detection : Detection) (offset_x offset_y : ℚ)
    (new_detection_id : String) : Detection :=
  { detection with
    width := detection.width + (python_round offset_x : ℚ)
    height := detection.height + (python_round offset_y : ℚ)
    parent_id := detection.detection_id
    detection_id := new_detection_id }

/-- The three aggregation modes of the consensus step. -/
inductive AggregationMode where
  | max
  | min
  | average
deriving DecidableEq, Repr

/-- `aggregate_field_values`: aggregate one numeric field of every
detection by the chosen mode (`max`/`min`/`statistics.mean`). -/
def aggregate_field_values (detections : List Detection)
    (field : Detection → ℚ) (aggregation_mode : AggregationMode) : ℚ :=
  let values := detections.map field
  match aggregation_mode with
  | .max => list_max values
  | .min => list_min values
  | .average => list_mean values

/-- `average_field_values`: `statistics.mean` of one field. -/
def average_field_values (detections : List Detection)
    (field : Detection → ℚ) : ℚ :=
  list_mean (detections.map field)

/-- `get_majority_class`: the most frequent class (first-encountered wins
ties, as `Counter.most_common`), with the class id of the first detection
holding it. -/
def get_majority_class (detections : List Detection) : String × Int :=
  let classes := distinct_in_order (detections.map (fun d => d.class_name))
  let counts := classes.map
    (fun c => (c, (detections.filter (fun d => d.class_name = c)).length))
  let best := counts.foldl (fun acc p => if acc.2 < p.2 then p else acc) ("", 0)
  let class_id := ((detections.filter (fun d => d.class_name = best.1)).head?.map
    (fun d => d.class_id)).getD 0
  (best.1, class_id)

/-- `get_class_of_most_confident_detection`: class and class id of the
first detection whose confidence equals the maximum. -/
def get_class_of_most_confident_detection (detections : List Detection) :
    String × Int :=
  let max_confidence := aggregate_field_values detections (fun d => d.confidence) .max
  match detections.find? (fun d => d.confidence = max_confidence) with
  | some d => (d.class_name, d.class_id)
  | none => ("", 0)

/-- `get_class_of_least_confident_detection`: class and class id of the
first detection whose confidence equals the minimum. -/
def get_class_of_least_confident_detection (detections : List Detection) :
    String × Int :=
  let min_confidence := aggregate_field_values detections (fun d => d.confidence) .min
  match detections.find? (fun d => d.confidence = min_confidence) with
  | some d => (d.class_name, d.class_id)
  | none => ("", 0)

/-- `get_detection_sizes`: `height * width` of every detection. -/
def get_detection_sizes (detections : List Detection) : List ℚ :=
  detections.map (fun d => d.height * d.width)

/-- `get_average_bounding_box`: componentwise mean of center and extent,
each independently rounded. -/
def get_average_bounding_box (detections : List Detection) : ℚ × ℚ × ℚ × ℚ :=
  ((python_round (average_field_values detections (fun d => d.x)) : ℚ),
   (python_round (average_field_values detections (fun d => d.y)) : ℚ),
   (python_round (average_field_values detections (fun d => d.width)) : ℚ),
   (python_round (average_field_values detections (fun d => d.height)) : ℚ))

/-- `get_smallest_bounding_box`: box of the first detection of minimal
`height * width`. -/
def get_smallest_bounding_box (detections : List Detection) : ℚ × ℚ × ℚ × ℚ :=
  let sizes := get_detection_sizes detections
  let smallest := list_min sizes
  match (detections.zip sizes).find? (fun p => decide (p.2 = smallest)) with
  | some p => (p.1.x, p.1.y, p.1.width, p.1.height)
  | none => (0, 0, 0, 0)

/-- `get_largest_bounding_box`: box of the first detection of maximal
`height * width`. -/
def get_largest_bounding_box (detections : List Detection) : ℚ × ℚ × ℚ × ℚ :=
  let sizes := get_detection_sizes detections
  let largest := list_max sizes
  match (detections.zip sizes).find? (fun p => decide (p.2 = largest)) with
  | some p => (p.1.x, p.1.y, p.1.width, p.1.height)
  | none => (0, 0, 0, 0)

/-- `merge_detections`: merge a nonempty group of source detections into
one consensus detection; class and class id follow the selector tied to
the confidence aggregation mode, the box follows the box aggregation mode,
`parent_id` is the first member's, and the fresh `uuid4` identifier is
modelled by the injected `new_detection_id`. -/
def merge_detections (detections : List Detection)
    (confidence_aggregation_mode boxes_aggregation_mode : AggregationMode)
    (new_detection_id : String) : Detection :=
  let class_pair :=
    match confidence_aggregation_mode with
    | .max => get_class_of_most_confident_detection detections
    | .min => get_class_of_least_confident_detection detections
    | .average => get_majority_class detections
  let box :=
    match boxes_aggregation_mode with
    | .max => get_largest_bounding_box detections
    | .min => get_smallest_bounding_box detections
    | .average => get_average_bounding_box detections
  { parent_id := ((detections.head?).map (fun d => d.parent_id)).getD ""
    detection_id := new_detection_id
    class_name := class_pair.1
    class_id := class_pair.2
    confidence := aggregate_field_values detections (fun d => d.confidence)
      confidence_aggregation_mode
    x := box.1
    y := box.2.1
    width := box.2.2.1
    height := box.2.2.2 }

/-- `confidence_matches`: strict confidence comparison used by the
pre-filter. -/
def confidence_matches (detection : Detection) (confidence_threshold : ℚ) : Bool :=
  decide (confidence_threshold < detection.confidence)

/-- `confidence_and_class_match`: pre-filter predicate when
`classes_to_consider` is given. -/
def confidence_and_class_match (detection : Detection)
    (confidence_threshold : ℚ) (classes : List String) : Bool :=
  confidence_matches detection confidence_threshold &&
    decide (detection.class_name ∈ classes)

/-- `filter_predictions`: per-source pre-filter of the consensus inputs by
strict confidence threshold and, when given, class membership. -/
def filter_predictions (predictions : List (List Detection))
    (confidence : ℚ) (classes_to_consider : Option (List String)) :
    List (List Detection) :=
  match classes_to_consider with
  | some classes =>
    predictions.map
      (fun detections => detections.filter
        (fun d => confidence_and_class_match d confidence classes))
  | none =>
    predictions.map
      (fun detections => detections.filter
        (fun d => confidence_matches d confidence))

/-- `enumerate_detections`: all `(source_id, detection)` pairs in source
order, skipping `excluded_source` when given. -/
def enumerate_detections (predictions : List (List Detection))
    (excluded_source : Option Nat) : List (Nat × Detection) :=
  (predictions.enum.filter (fun p => excluded_source ≠ some p.1)).flatMap
    (fun p => p.2.map (fun detection => (p.1, detection)))

/-- `get_detections_from_different_sources_with_max_overlap`: for every
other source, the not-yet-considered detection with the highest IOU with
`detection` strictly above `iou_threshold` (first seen wins ties); in
class-aware mode only same-class detections are compared.  The Python
`dict` keyed by source is an insertion-ordered association list. -/
def get_detections_from_different_sources_with_max_overlap
    (detection : Detection) (source : Nat)
    (predictions : List (List Detection)) (iou_threshold : ℚ)
    (class_aware : Bool) (detections_already_considered : List String) :
    List (Nat × Detection × ℚ) :=
  (enumerate_detections predictions (some source)).foldl
    (fun current_max_overlap entry =>
      let other_source := entry.1
      let other_detection := entry.2
      if other_detection.detection_id ∈ detections_already_considered then
        current_max_overlap
      else if class_aware ∧ detection.class_name ≠ other_detection.class_name then
        current_max_overlap
      else
        let iou_value := calculate_iou detection other_detection
        if iou_value ≤ iou_threshold then current_max_overlap
        else
          match current_max_overlap.find? (fun p => p.1 = other_source) with
          | none => current_max_overlap ++ [(other_source, other_detection, iou_value)]
          | some previous =>
            if previous.2.2 < iou_value then
              current_max_overlap.map
                (fun p => if p.1 = other_source
                  then (other_source, other_detection, iou_value) else p)
            else current_max_overlap)
    []

/-- State of the consensus loop: the set of consumed source-detection ids
(`detections_already_considered`) and the accepted merges, each paired
with the ids of the source detections passed to `merge_detections`
(a ghost trace; the code keeps only the merged detections). -/
structure ConsensusState where
  considered : List String
  groups : List (Detection × List String)
deriving DecidableEq, Repr

/-- One iteration of the consensus loop of `resolve_batch_consensus` for
the seed `(source_id, detection)`: find per-source best matches, and when
their count reaches `required_votes - 1` and the merged confidence clears
the threshold, accept the merged detection and mark the members consumed. -/
def consensus_step (predictions : List (List Detection))
    (required_votes : Int) (class_aware : Bool)
    (iou_threshold confidence : ℚ)
    (detections_merge_confidence_aggregation
      detections_merge_coordinates_aggregation : AggregationMode)
    (state : ConsensusState) (entry : Nat × Detection) : ConsensusState :=
  let detections_with_max_overlap :=
    get_detections_from_different_sources_with_max_overlap
      entry.2 entry.1 predictions iou_threshold class_aware state.considered
  if required_votes - 1 ≤ (detections_with_max_overlap.length : Int) then
    let members := entry.2 :: detections_with_max_overlap.map (fun m => m.2.1)
    let merged_detection := merge_detections members
      detections_merge_confidence_aggregation
      detections_merge_coordinates_aggregation ""
    if confidence ≤ merged_detection.confidence then
      { considered := state.considered ++ members.map (fun d => d.detection_id)
        groups := state.groups ++ [(merged_detection, members.map (fun d => d.detection_id))] }
    else state
  else state

/-- All parent ids encountered across every source, in iteration order. -/
def all_parent_ids (predictions : List (List Detection)) : List String :=
  predictions.flatten.map (fun d => d.parent_id)

/-- The `ExecutionGraphError` message for mismatched parent ids. -/
def parent_id_mismatch_message : String :=
  "Missmatch in predictions - while executing consensus step, in equivalent batches, detections are assigned different parent identifiers, whereas consensus can only be applied for predictions made against the same input."

/-- `get_parent_id_of_predictions_from_different_sources`: the unique
parent id shared by every detection; more than one distinct parent id is
an `ExecutionGraphError`, none at all hits `list(set())[0]` and is an
`IndexError`. -/
def get_parent_id_of_predictions_from_different_sources
    (predictions : List (List Detection)) : Except StepFailure String :=
  let encountered_parent_ids := distinct_in_order (all_parent_ids predictions)
  if 1 < encountered_parent_ids.length then
    .error (.graphError parent_id_mismatch_message)
  else
    match encountered_parent_ids with
    | [] => .error .indexError
    | p :: _ => .ok p

/-- The `required_objects` parameter: a plain integer count or a
per-class mapping (a Python `dict`, embedded as an insertion-ordered
association list). -/
inductive RequiredObjects where
  | int (n : Int)
  | mapping (entries : List (String × Int))
deriving DecidableEq, Repr

/-- Number of consensus detections of a given class
(`class2detections[c]`, with the `defaultdict` empty-list default). -/
def count_class (consensus_detections : List Detection) (c : String) : Nat :=
  (consensus_detections.filter (fun d => d.class_name = c)).length

/-- Per-class aggregated confidences over the classes encountered in the
consensus detections, in first-occurrence order. -/
def class2confidence (consensus_detections : List Detection)
    (aggregation_mode : AggregationMode) : List (String × ℚ) :=
  (distinct_in_order (consensus_detections.map (fun d => d.class_name))).map
    (fun c => (c, aggregate_field_values
      (consensus_detections.filter (fun d => d.class_name = c))
      (fun d => d.confidence) aggregation_mode))

/-- `check_objects_presence_in_consensus_predictions`: the presence
verdict and confidence map.  Empty consensus is never present; a missing
`required_objects` defaults to the integer `0`; a mapping is summed when
not class-aware; in class-aware mode an integer `required_objects` hits
`int.items()` and is an `AttributeError`. -/
def check_objects_presence_in_consensus_predictions
    (consensus_detections : List Detection) (class_aware : Bool)
    (aggregation_mode : AggregationMode)
    (required_objects : Option RequiredObjects) :
    Except StepFailure (Bool × List (String × ℚ)) :=
  if consensus_detections.length = 0 then .ok (false, [])
  else if class_aware then
    match required_objects.getD (.int 0) with
    | .int _ => .error .attributeError
    | .mapping entries =>
      if entries.all (fun p => decide (p.2 ≤ (count_class consensus_detections p.1 : Int))) then
        .ok (true, class2confidence consensus_detections aggregation_mode)
      else .ok (false, [])
  else
    let required_count : Int :=
      match required_objects.getD (.int 0) with
      | .int n => n
      | .mapping entries => entries.foldl (fun s p => s + p.2) 0
    if (consensus_detections.length : Int) < required_count then .ok (false, [])
    else
      .ok (true, [("any_object",
        aggregate_field_values consensus_detections (fun d => d.confidence)
          aggregation_mode)])

/-- The tuple returned by `resolve_batch_consensus`. -/
structure ConsensusOutput where
  parent_id : String
  object_present : Bool
  presence_confidence : List (String × ℚ)
  consensus_detections : List Detection
deriving DecidableEq, Repr

/-- `resolve_batch_consensus`: validate the shared parent id, pre-filter
the sources (with threshold `0.0`, as the call site does), run the
consensus loop over every detection of every source, and compute the
presence verdict. -/
def resolve_batch_consensus (predictions : List (List Detection))
    (required_votes : Int) (class_aware : Bool)
    (iou_threshold confidence : ℚ)
    (classes_to_consider : Option (List String))
    (required_objects : Option RequiredObjects)
    (presence_confidence_aggregation
      detections_merge_confidence_aggregation
      detections_merge_coordinates_aggregation : AggregationMode) :
    Except StepFailure ConsensusOutput :=
  match get_parent_id_of_predictions_from_different_sources predictions with
  | .error e => .error e
  | .ok parent_id =>
    let filtered := filter_predictions predictions 0 classes_to_consider
    let final_state := (enumerate_detections filtered none).foldl
      (consensus_step filtered required_votes class_aware iou_threshold
        confidence detections_merge_confidence_aggregation
        detections_merge_coordinates_aggregation)
      ⟨[], []⟩
    let consensus_detections := final_state.groups.map (fun g => g.1)
    match check_objects_presence_in_consensus_predictions consensus_detections
      class_aware presence_confidence_aggregation required_objects with
    | .error e => .error e
    | .ok verdict =>
      .ok ⟨parent_id, verdict.1, verdict.2, consensus_detections⟩

/-- The ghost trace of `resolve_batch_consensus`: the member ids of each
accepted consensus group, in acceptance order (the detection-id lists
passed to `merge_detections`). -/
def consensus_groups (predictions : List (List Detection))
    (required_votes : Int) (class_aware : Bool)
    (iou_threshold confidence : ℚ)
    (classes_to_consider : Option (List String))
    (detections_merge_confidence_aggregation
      detections_merge_coordinates_aggregation : AggregationMode) :
    List (List String) :=
  let filtered := filter_predictions predictions 0 classes_to_consider
  (((enumerate_detections filtered none).foldl
    (consensus_step filtered required_votes class_aware iou_threshold
      confidence detections_merge_confidence_aggregation
      detections_merge_coordinates_aggregation)
    ⟨[], []⟩).groups).map (fun g => g.2)

/-- A predictions input of the consensus step: a flat detection list (one
image) or a nested list of per-image detection lists (a batch); the
Python code distinguishes the two by inspecting the first element. -/
inductive PredictionsValue where
  | flat (detections : List Detection)
  | nested (batches : List (List Detection))
deriving DecidableEq, Repr

/-- `get_batch_size`: `1` for an empty input or a flat detection list
(first element a dict), otherwise the number of nested batches. -/
def get_batch_size : PredictionsValue → Nat
  | .flat _ => 1
  | .nested [] => 1
  | .nested batches => batches.length

/-- `get_predictions_batch_sizes`: batch size of every source. -/
def get_predictions_batch_sizes (all_predictions : List PredictionsValue) :
    List Nat :=
  all_predictions.map get_batch_size

/-- `all_batch_sizes_equal`: every batch size equals the first (vacuously
true when there are none). -/
def all_batch_sizes_equal (batch_sizes : List Nat) : Bool :=
  match batch_sizes with
  | [] => true
  | reference :: rest => (reference :: rest).all (fun e => e = reference)

/-- `get_and_validate_batch_sizes`: the per-source batch sizes, or an
`ExecutionGraphError` naming the step when they are not all equal. -/
def get_and_validate_batch_sizes (all_predictions : List PredictionsValue)
    (step_name : String) : Except StepFailure (List Nat) :=
  let batch_sizes := get_predictions_batch_sizes all_predictions
  if all_batch_sizes_equal batch_sizes then .ok batch_sizes
  else .error (.graphError
    ("Detected missmatch of input dimensions in step: " ++ step_name))

/-- Example detection: id `a`, parent `p`, class `cat`, confidence `0.9`,
box centered at `(10, 10)` with extent `4 x 4`. -/
def exDA : Detection :=
  ⟨"a", "p", "cat", 0, 9 / 10, 10, 10, 4, 4⟩

/-- Example detection: id `b`, parent `p`, same box and confidence as
`exDA`, from another source. -/
def exDB : Detection :=
  ⟨"b", "p", "cat", 0, 9 / 10, 10, 10, 4, 4⟩

/-- Example detection: id `b`, parent `p`, same box as `exDA` but
confidence `0.2` (at or below the `0.3` threshold). -/
def exB02 : Detection :=
  ⟨"b", "p", "cat", 0, 2 / 10, 10, 10, 4, 4⟩

/-- Example detection: id `b`, parent `p`, confidence `0.2`, box far from
`exDA`'s. -/
def exB02far : Detection :=
  ⟨"b", "p", "cat", 0, 2 / 10, 100, 100, 4, 4⟩

/-- Example detection with parent id `q`, used for the parent-id mismatch
scenario. -/
def exDQ : Detection :=
  ⟨"qq", "q", "cat", 0, 9 / 10, 10, 10, 4, 4⟩

/-- Example detection with `detection_id = "det-1"` and
`parent_id = "d1"`, used for the provenance scenarios. -/
def exD7 : Detection :=
  ⟨"det-1", "d1", "cat", 0, 9 / 10, 10, 10, 4, 4⟩

/-- C1: the claim says an accepted source detection can never contribute
to nor seed a later consensus group, so no detection id appears in more
than one accepted group.  The code only checks the consumed set when
scanning for matches, never for the seed: with `required_votes = 1` and
two identical detections `a`, `b` in two sources, the consumed detection
`b` seeds a second accepted group, so `b` appears in the two accepted
groups `["a", "b"]` and `["b"]`. -/
theorem consensus_consumed_detection_reused :
    consensus_groups [[exDA], [exDB]] 1 false (1 / 2) (3 / 10) none
        .average .average = [["a", "b"], ["b"]] ∧
    ((consensus_groups [[exDA], [exDB]] 1 false (1 / 2) (3 / 10) none
        .average .average).filter (fun g => "b" ∈ g)).length = 2 := by
  exact ⟨by with_unfolding_all decide, by with_unfolding_all decide⟩

/-- C4: two detections at confidence `0.9` and `0.2` in one source, with
confidence threshold `0.3`, `class_aware = false` and
`required_votes = 1`: whatever the aggregation modes, the consensus
output is exactly one detection and its confidence is `0.9`. -/
theorem consensus_end_to_end_two_detections :
    ∀ (m1 m2 m3 : AggregationMode),
      (resolve_batch_consensus [[exDA, exB02far]] 1 false (1 / 2) (3 / 10)
          none none m1 m2 m3).map
        (fun r => r.consensus_detections.map (fun d => d.confidence)) =
      .ok [9 / 10] := by
  intro m1 m2 m3
  cases m1 <;> cases m2 <;> cases m3 <;> with_unfolding_all rfl

/-- C7 counterexample: cropping the detection `exD7`, whose
`parent_id` is `"d1"`, yields a crop whose `parent_id` is the detection's
own id `"det-1"`, not `"d1"` as the claim states. -/
theorem crop_parent_id_counterexample :
    (crop_image [exD7] 480 640).map (fun c => c.parent_id) ≠
      [exD7.parent_id] := by
  decide

/-- C7 (amended): the crop produced from a detection carries `parent_id`
equal to the detection's own identifier (not the detection's
`parent_id`), and the DetectionOffset output carries the injected fresh
identifier while its `parent_id` equals the input detection's identifier,
so crop-then-offset forms a strictly growing provenance chain. -/
theorem crop_offset_provenance_chain :
    (∀ (detections : List Detection) (oh ow : Int),
      (crop_image detections oh ow).map (fun c => c.parent_id) =
        detections.map (fun d => d.detection_id)) ∧
    (∀ (d : Detection) (ox oy : ℚ) (nid : String),
      (offset_detection d ox oy nid).parent_id = d.detection_id ∧
      (offset_detection d ox oy nid).detection_id = nid) := by
  constructor
  · intro detections oh ow
    simp [crop_image]
  · intro d ox oy nid
    exact ⟨rfl, rfl⟩

/-- C2 counterexample: `resolve_batch_consensus` pre-filters with
threshold `0.0`, not the configured `confidenceThreshold` (`0.3` here):
the filtered sources are not those above the configured threshold, and
the detection with confidence `0.2 ≤ 0.3` is merged with the `0.9` one
(average `0.55`), so it does participate in matching and merging. -/
theorem consensus_prefilter_counterexample :
    filter_predictions [[exDA], [exB02]] 0 none ≠
      [[exDA], [exB02]].map (fun ds => ds.filter
        (fun d => decide ((3 / 10 : ℚ) < d.confidence))) ∧
    (resolve_batch_consensus [[exDA], [exB02]] 2 false (1 / 2) (3 / 10)
        none none .average .average .average).map
      (fun r => r.consensus_detections.map (fun d => d.confidence)) =
    .ok [11 / 20] := by
  exact ⟨by with_unfolding_all decide, by with_unfolding_all rfl⟩

/-- C2 (amended): the pre-filter keeps exactly the detections whose
confidence is strictly greater than `0.0` (and, when `classesToConsider`
is given, whose class is in that set); the configured
`confidenceThreshold` is applied only to the merged confidence at
acceptance, so a detection with confidence at or below the threshold can
still participate in matching and merging (here `0.2` is merged into an
accepted `0.55`-confidence consensus detection). -/
theorem consensus_prefilter_amended :
    (∀ (predictions : List (List Detection)) (thr : ℚ)
        (classes : Option (List String)),
      filter_predictions predictions thr classes =
        predictions.map (fun detections => detections.filter
          (fun d => decide (thr < d.confidence) &&
            match classes with
            | none => true
            | some cs => decide (d.class_name ∈ cs)))) ∧
    (resolve_batch_consensus [[exDA], [exB02]] 2 false (1 / 2) (3 / 10)
        none none .average .average .average).map
      (fun r => r.consensus_detections.map (fun d => d.confidence)) =
    .ok [11 / 20] := by
  constructor
  · intro predictions thr classes
    cases classes with
    | none =>
      simp [filter_predictions, confidence_matches, Bool.and_true]
    | some cs =>
      simp [filter_predictions, confidence_and_class_match, confidence_matches]
  · with_unfolding_all rfl

/-- C3: a seeded detection is merged into the consensus output iff the
number of best-match corroborating detections from other sources is at
least `required_votes - 1` and the merged confidence clears the
threshold; in particular with `required_votes = 3` and only two agreeing
sources nothing is output, while with `required_votes = 2` and two
agreeing sources exactly one detection (confidence `0.9`) is output. -/
theorem consensus_quorum_boundary :
    (∀ (predictions : List (List Detection)) (required_votes : Int)
        (class_aware : Bool) (iou_threshold confidence : ℚ)
        (mc mb : AggregationMode) (state : ConsensusState)
        (entry : Nat × Detection),
      let best_matches := get_detections_from_different_sources_with_max_overlap
        entry.2 entry.1 predictions iou_threshold class_aware state.considered
      let members := entry.2 :: best_matches.map (fun m => m.2.1)
      let merged := merge_detections members mc mb ""
      (consensus_step predictions required_votes class_aware iou_threshold
          confidence mc mb state entry).groups =
        if required_votes - 1 ≤ (best_matches.length : Int) ∧
            confidence ≤ merged.confidence
        then state.groups ++ [(merged, members.map (fun d => d.detection_id))]
        else state.groups) ∧
    (∀ m : AggregationMode,
      resolve_batch_consensus [[exDA], [exDB]] 3 false (1 / 2) 0 none none
        m .average .average = .ok ⟨"p", false, [], []⟩) ∧
    (∀ m : AggregationMode,
      (resolve_batch_consensus [[exDA], [exDB]] 2 false (1 / 2) 0 none none
          m .average .average).map
        (fun r => r.consensus_detections.map (fun d => d.confidence)) =
      .ok [9 / 10]) := by
  refine ⟨?_, ?_, ?_⟩
  · intro predictions required_votes class_aware iou_threshold confidence
      mc mb state entry
    simp only [consensus_step]
    by_cases h1 : required_votes - 1 ≤
      ((get_detections_from_different_sources_with_max_overlap entry.2 entry.1
        predictions iou_threshold class_aware state.considered).length : Int)
    · by_cases h2 : confidence ≤
        (merge_detections (entry.2 ::
          (get_detections_from_different_sources_with_max_overlap entry.2 entry.1
            predictions iou_threshold class_aware state.considered).map
          (fun m => m.2.1)) mc mb "").confidence
      · simp [h1, h2]
      · simp [h1, h2]
    · simp [h1]
  · intro m
    cases m <;> with_unfolding_all rfl
  · intro m
    cases m <;> with_unfolding_all rfl

/-- If strictly more than one distinct parent id is encountered,
`get_parent_id_of_predictions_from_different_sources` raises the
`ExecutionGraphError`. -/
theorem get_parent_id_mismatch (predictions : List (List Detection))
    (h : 1 < (distinct_in_order (all_parent_ids predictions)).length) :
    get_parent_id_of_predictions_from_different_sources predictions =
      .error (.graphError parent_id_mismatch_message) := by
  unfold get_parent_id_of_predictions_from_different_sources
  rw [if_pos h]

/-- A successfully returned parent id is one of the encountered parent
ids. -/
theorem get_parent_id_ok_mem (predictions : List (List Detection))
    (pid : String)
    (h : get_parent_id_of_predictions_from_different_sources predictions =
      .ok pid) :
    pid ∈ all_parent_ids predictions := by
  unfold get_parent_id_of_predictions_from_different_sources at h
  by_cases h1 : 1 < (distinct_in_order (all_parent_ids predictions)).length
  · rw [if_pos h1] at h
    cases h
  · rw [if_neg h1] at h
    cases hd : distinct_in_order (all_parent_ids predictions) with
    | nil => rw [hd] at h; cases h
    | cons q rest =>
      rw [hd] at h
      cases h
      have : pid ∈ distinct_in_order (all_parent_ids predictions) := by
        rw [hd]; exact List.mem_cons_self pid rest
      exact (mem_distinct_in_order _ _).mp this

/-- C5: detections carrying two distinct parent ids make
`resolve_batch_consensus` fail with the parent-mismatch
`ExecutionGraphError`; when every detection carries parent id `p` and the
step returns a result, that result's parent id is `p`. -/
theorem consensus_parent_id_validation :
    (∀ (predictions : List (List Detection)) (votes : Int) (aware : Bool)
        (iouT conf : ℚ) (cls : Option (List String))
        (ro : Option RequiredObjects) (m1 m2 m3 : AggregationMode)
        (d1 d2 : Detection),
      d1 ∈ predictions.flatten → d2 ∈ predictions.flatten →
      d1.parent_id ≠ d2.parent_id →
      resolve_batch_consensus predictions votes aware iouT conf cls ro m1 m2 m3 =
        .error (.graphError parent_id_mismatch_message)) ∧
    (∀ (predictions : List (List Detection)) (votes : Int) (aware : Bool)
        (iouT conf : ℚ) (cls : Option (List String))
        (ro : Option RequiredObjects) (m1 m2 m3 : AggregationMode)
        (p : String) (r : ConsensusOutput),
      (∀ d ∈ predictions.flatten, d.parent_id = p) →
      resolve_batch_consensus predictions votes aware iouT conf cls ro m1 m2 m3 =
        .ok r →
      r.parent_id = p) := by
  constructor
  · intro predictions votes aware iouT conf cls ro m1 m2 m3 d1 d2 h1 h2 hne
    have hm1 : d1.parent_id ∈ all_parent_ids predictions :=
      List.mem_map_of_mem _ h1
    have hm2 : d2.parent_id ∈ all_parent_ids predictions :=
      List.mem_map_of_mem _ h2
    have hlen : 1 < (distinct_in_order (all_parent_ids predictions)).length :=
      one_lt_length_of_two_mem
        ((mem_distinct_in_order _ _).mpr hm1)
        ((mem_distinct_in_order _ _).mpr hm2) hne
    unfold resolve_batch_consensus
    rw [get_parent_id_mismatch predictions hlen]
  · intro predictions votes aware iouT conf cls ro m1 m2 m3 p r hall hok
    unfold resolve_batch_consensus at hok
    cases hg : get_parent_id_of_predictions_from_different_sources predictions with
    | error e => rw [hg] at hok; cases hok
    | ok pid =>
      rw [hg] at hok
      have hpid : pid = p := by
        rcases List.mem_map.mp (get_parent_id_ok_mem predictions pid hg) with
          ⟨d, hd, hdp⟩
        rw [← hdp]
        exact hall d hd
      dsimp only at hok
      split at hok
      · cases hok
      · cases hok
        exact hpid

/-- Witness for C5: the mismatch branch at a concrete two-source input
with parent ids `p` and `q`, and the shared-parent branch at a concrete
input whose detections all carry parent id `p`. -/
theorem consensus_parent_id_validation_witness :
    resolve_batch_consensus [[exDA], [exDQ]] 2 false (1 / 2) 0 none none
        .average .average .average =
      .error (.graphError parent_id_mismatch_message) ∧
    (⟨"p", false, [], []⟩ : ConsensusOutput).parent_id = "p" := by
  constructor
  · exact consensus_parent_id_validation.1 [[exDA], [exDQ]] 2 false (1 / 2) 0
      none none .average .average .average exDA exDQ
      (by with_unfolding_all decide) (by with_unfolding_all decide)
      (by with_unfolding_all decide)
  · exact consensus_parent_id_validation.2 [[exDA], [exDB]] 3 false (1 / 2) 0
      none none .average .average .average "p" ⟨"p", false, [], []⟩
      (by with_unfolding_all decide) (by with_unfolding_all rfl)

/-- `all_batch_sizes_equal` holds exactly when the list is constant. -/
theorem all_batch_sizes_equal_iff (l : List Nat) :
    all_batch_sizes_equal l = true ↔ ∀ a ∈ l, ∀ b ∈ l, a = b := by
  cases l with
  | nil => simp [all_batch_sizes_equal]
  | cons reference rest =>
    simp only [all_batch_sizes_equal, List.all_eq_true, decide_eq_true_eq]
    constructor
    · intro h a ha b hb
      rw [h a ha, h b hb]
    · intro h e he
      exact h e he reference (List.mem_cons_self reference rest)

/-- The batch sizes are all equal exactly when every two sources have the
same inferred batch size. -/
theorem batch_sizes_pairwise (all_predictions : List PredictionsValue) :
    all_batch_sizes_equal (get_predictions_batch_sizes all_predictions) = true ↔
      ∀ p ∈ all_predictions, ∀ q ∈ all_predictions,
        get_batch_size p = get_batch_size q := by
  rw [all_batch_sizes_equal_iff]
  unfold get_predictions_batch_sizes
  constructor
  · intro h p hp q hq
    exact h _ (List.mem_map_of_mem _ hp) _ (List.mem_map_of_mem _ hq)
  · intro h a ha b hb
    rcases List.mem_map.mp ha with ⟨p, hp, rfl⟩
    rcases List.mem_map.mp hb with ⟨q, hq, rfl⟩
    exact h p hp q hq

/-- C6: the consensus step's batch-size validation succeeds exactly when
every two sources have equal inferred batch size, and otherwise raises
the `ExecutionGraphError` naming the offending step; in particular two
nested sources with per-image counts `2` and `3` raise the error naming
`my_step`. -/
theorem consensus_batch_size_validation :
    (∀ (all_predictions : List PredictionsValue) (step_name : String),
      get_and_validate_batch_sizes all_predictions step_name =
        if ∀ p ∈ all_predictions, ∀ q ∈ all_predictions,
            get_batch_size p = get_batch_size q
        then .ok (get_predictions_batch_sizes all_predictions)
        else .error (.graphError
          ("Detected missmatch of input dimensions in step: " ++ step_name))) ∧
    get_and_validate_batch_sizes
        [.nested [[exDA], [exDB]], .nested [[exDA], [exDB], [exDA]]]
        "my_step" =
      .error (.graphError
        "Detected missmatch of input dimensions in step: my_step") := by
  constructor
  · intro all_predictions step_name
    by_cases h : ∀ p ∈ all_predictions, ∀ q ∈ all_predictions,
      get_batch_size p = get_batch_size q
    · rw [if_pos h]
      unfold get_and_validate_batch_sizes
      rw [if_pos ((batch_sizes_pairwise all_predictions).mpr h)]
    · rw [if_neg h]
      unfold get_and_validate_batch_sizes
      rw [if_neg (fun hb => h ((batch_sizes_pairwise all_predictions).mp hb))]
  · with_unfolding_all rfl

/-- C8: an empty consensus always yields the not-present verdict with an
empty confidence map; on a nonempty consensus in class-aware mode with a
per-class mapping, the verdict is present with the per-class confidences
exactly when every named class reaches its per-class minimum count, and
the not-present verdict with an empty confidence map otherwise. -/
theorem consensus_presence_verdict :
    (∀ (class_aware : Bool) (mode : AggregationMode)
        (ro : Option RequiredObjects),
      check_objects_presence_in_consensus_predictions [] class_aware mode ro =
        .ok (false, [])) ∧
    (∀ (d : Detection) (rest : List Detection) (mode : AggregationMode)
        (entries : List (String × Int)),
      check_objects_presence_in_consensus_predictions (d :: rest) true mode
          (some (.mapping entries)) =
        if ∀ p ∈ entries, p.2 ≤ (count_class (d :: rest) p.1 : Int)
        then .ok (true, class2confidence (d :: rest) mode)
        else .ok (false, [])) := by
  constructor
  · intro class_aware mode ro
    rfl
  · intro d rest mode entries
    have hlen : ¬((d :: rest).length = 0) := by simp
    unfold check_objects_presence_in_consensus_predictions
    rw [if_neg hlen, if_pos rfl]
    simp only [Option.getD]
    by_cases h : ∀ p ∈ entries, p.2 ≤ (count_class (d :: rest) p.1 : Int)
    · rw [if_pos h]
      have hall : entries.all
          (fun p => decide (p.2 ≤ (count_class (d :: rest) p.1 : Int))) = true := by
        rw [List.all_eq_true]
        intro p hp
        exact decide_eq_true (h p hp)
      rw [if_pos hall]
    · rw [if_neg h]
      have hall : ¬(entries.all
          (fun p => decide (p.2 ≤ (count_class (d :: rest) p.1 : Int))) = true) := by
        rw [List.all_eq_true]
        intro hc
        exact h (fun p hp => of_decide_eq_true (hc p hp))
      rw [if_neg hall]

/-- Flattening any number of empty sources yields no detections. -/
theorem flatten_replicate_nil (n : Nat) :
    (List.replicate n ([] : List Detection)).flatten = [] := by
  induction n with
  | zero => rfl
  | succ k ih => simp [List.replicate_succ, ih]

/-- C9: when every prediction source is an empty detection list, the
batch-size validation succeeds (every empty source has inferred batch
size `1`), and `resolve_batch_consensus` then fails with the unguarded
`IndexError` of `list(set())[0]` in the parent-id extraction, instead of
returning an empty consensus or a descriptive error. -/
theorem consensus_all_sources_empty_index_error :
    (∀ (n : Nat) (step_name : String),
      get_and_validate_batch_sizes (List.replicate n (.flat [])) step_name =
        .ok (List.replicate n 1)) ∧
    (∀ (n : Nat) (votes : Int) (aware : Bool) (iouT conf : ℚ)
        (cls : Option (List String)) (ro : Option RequiredObjects)
        (m1 m2 m3 : AggregationMode),
      resolve_batch_consensus (List.replicate n []) votes aware iouT conf cls
        ro m1 m2 m3 = .error .indexError) := by
  constructor
  · intro n step_name
    have hsizes : get_predictions_batch_sizes (List.replicate n (.flat [])) =
        List.replicate n 1 := by
      unfold get_predictions_batch_sizes
      rw [List.map_replicate]
      rfl
    have hall : all_batch_sizes_equal
        (get_predictions_batch_sizes (List.replicate n (.flat []))) = true := by
      rw [hsizes, all_batch_sizes_equal_iff]
      intro a ha b hb
      rw [List.eq_of_mem_replicate ha, List.eq_of_mem_replicate hb]
    unfold get_and_validate_batch_sizes
    rw [if_pos hall, hsizes]
  · intro n votes aware iouT conf cls ro m1 m2 m3
    have hparent : get_parent_id_of_predictions_from_different_sources
        (List.replicate n []) = .error .indexError := by
      unfold get_parent_id_of_predictions_from_different_sources
      unfold all_parent_ids
      rw [flatten_replicate_nil]
      rfl
    unfold resolve_batch_consensus
    rw [hparent]

/-- C10: on a nonempty consensus in class-aware mode, an omitted
`required_objects` defaults to the integer `0` and an integer
`required_objects` is iterated as a mapping, so both fail with the
unguarded `AttributeError` of `int.items()`; a verdict is returned only
when `required_objects` is actually a per-class mapping. -/
theorem consensus_class_aware_required_objects_errors :
    (∀ (d : Detection) (rest : List Detection) (mode : AggregationMode),
      check_objects_presence_in_consensus_predictions (d :: rest) true mode
        none = .error .attributeError) ∧
    (∀ (d : Detection) (rest : List Detection) (mode : AggregationMode)
        (k : Int),
      check_objects_presence_in_consensus_predictions (d :: rest) true mode
        (some (.int k)) = .error .attributeError) ∧
    (∀ (d : Detection) (rest : List Detection) (mode : AggregationMode)
        (ro : Option RequiredObjects) (verdict : Bool × List (String × ℚ)),
      check_objects_presence_in_consensus_predictions (d :: rest) true mode ro =
        .ok verdict →
      ∃ entries, ro = some (.mapping entries)) := by
  refine ⟨?_, ?_, ?_⟩
  · intro d rest mode
    have hlen : ¬((d :: rest).length = 0) := by simp
    unfold check_objects_presence_in_consensus_predictions
    rw [if_neg hlen, if_pos rfl]
    rfl
  · intro d rest mode k
    have hlen : ¬((d :: rest).length = 0) := by simp
    unfold check_objects_presence_in_consensus_predictions
    rw [if_neg hlen, if_pos rfl]
    rfl
  · intro d rest mode ro verdict hok
    have hlen : ¬((d :: rest).length = 0) := by simp
    cases ro with
    | none =>
      unfold check_objects_presence_in_consensus_predictions at hok
      rw [if_neg hlen, if_pos rfl] at hok
      cases hok
    | some r =>
      cases r with
      | int k =>
        unfold check_objects_presence_in_consensus_predictions at hok
        rw [if_neg hlen, if_pos rfl] at hok
        cases hok
      | mapping entries => exact ⟨entries, rfl⟩

/-- Witness for C10: with the concrete nonempty consensus `[exDA]` and
the concrete per-class mapping requiring one `cat`, the presence check
succeeds, so the mapping shape is forced. -/
theorem consensus_class_aware_required_objects_errors_witness :
    ∃ entries, (some (RequiredObjects.mapping [("cat", 1)]) :
        Option RequiredObjects) = some (.mapping entries) := by
  exact consensus_class_aware_required_objects_errors.2.2 exDA [] .max
    (some (.mapping [("cat", 1)])) (true, [("cat", 9 / 10)])
    (by with_unfolding_all rfl)
